import Mathlib

/-!
Shallow embedding of the checkout/check-in core of the vault-plugin-secrets-ad
repository (plugin/checkout_handlers.go and the related historical variants found
in the source tree), together with proofs about the claims of its specification.

Storage (the external durable key-value collaborator, logical.Storage) is modelled
as an association list from keys to structured values.  The string keys used by the
Go code all have the shape prefix ++ name with pairwise non-overlapping prefixes
("checkout/", "library/", "password/", "reserve/", "config"), so they are modelled
by a tagged key type whose equality coincides with equality of the underlying
strings.
-/

namespace VaultAD

/-- CheckOut record of plugin/checkout_handlers.go: borrower identity, lending
period and the absolute due time.  time.Duration and time.Time are modelled as
integers (nanoseconds; only ordering of Due matters to the code). -/
structure CheckOut where
  borrowerEntityID : String
  borrowerClientToken : String
  lendingPeriod : Int
  due : Int
  deriving Repr, DecidableEq

/-- Modelled from the spec: the CheckOut record of the final data-model variant
(file checkout_handler.go, absent from the source tree; only its test
checkout_handler_test.go and its callers path_checkouts.go / path_checkout_sets.go
are present).  Spec section 3: isAvailable, borrowerEntityId, borrowerClientToken,
lendingPeriod, due. -/
structure CheckOutV2 where
  isAvailable : Bool
  borrowerEntityID : String
  borrowerClientToken : String
  lendingPeriod : Int
  due : Int
  deriving Repr, DecidableEq

/-- librarySet of path_checkout_sets.go. -/
structure LibrarySet where
  serviceAccountNames : List String
  ttl : Int
  maxTTL : Int
  disableCheckInEnforcement : Bool
  deriving Repr, DecidableEq

/-- libraryReserve of path_reserves.go (the era in which checkout records lived
under the library/ keys and reserves under reserve/ keys). -/
structure LibraryReserve where
  serviceAccountNames : List String
  lendingPeriod : Int
  deriving Repr, DecidableEq

/-- The slice of the engine configuration that PasswordHandler.CheckIn reads
(readConfig): the password policy used by util.GeneratePassword. -/
structure EngineConf where
  formatter : String
  length : Nat
  deriving Repr, DecidableEq

/-- Values stored in the durable key-value storage, one constructor per JSON
document kind the plugin persists.  Decoding a value of the wrong kind is the
model of a DecodeJSON failure. -/
inductive StorageValue where
  | checkOutVal (c : CheckOut)
  | checkOutV2Val (c : CheckOutV2)
  | passwordVal (p : String)
  | reserveVal (r : LibraryReserve)
  | setVal (s : LibrarySet)
  | configVal (c : EngineConf)
  deriving Repr, DecidableEq

/-- Storage keys.  Each constructor stands for the string key written next to it;
the prefixes are pairwise non-overlapping, so equality of these tagged keys
coincides with equality of the Go string keys. -/
inductive StorageKey where
  | checkoutKey (name : String)
  | libraryKey (name : String)
  | passwordKey (name : String)
  | reserveKey (name : String)
  | configKey
  deriving Repr, DecidableEq

/-- logical.Storage, modelled as an association list (the InmemStorage of the
tests).  Get/Put/Delete of the collaborator are per-key atomic and never fail in
the model, matching the in-memory storage the code is tested against. -/
abbrev Storage := List (StorageKey × StorageValue)

def storageGet (storage : Storage) (k : StorageKey) : Option StorageValue :=
  (storage.find? (fun e => e.1 = k)).map (fun e => e.2)

def storagePut (storage : Storage) (k : StorageKey) (v : StorageValue) : Storage :=
  (k, v) :: storage.filter (fun e => ¬ (e.1 = k))

def storageDelete (storage : Storage) (k : StorageKey) : Storage :=
  storage.filter (fun e => ¬ (e.1 = k))

/-- Observable effects of one handler call: storage traffic, WAL traffic, remote
client calls and per-account lock activity, in program order. -/
inductive Event where
  | getOp (k : StorageKey)
  | putOp (k : StorageKey) (v : StorageValue)
  | delOp (k : StorageKey)
  | putWALOp (name pw : String)
  | delWALOp (id : Nat)
  | updatePasswordOp (name pw : String) (ok : Bool)
  | acquireWrite (name : String)
  | releaseWrite (name : String)
  | acquireRead (name : String)
  | releaseRead (name : String)
  deriving Repr, DecidableEq

/-- Lock events are the ones emitted by the ServiceAccountLocker. -/
def Event.isLock : Event → Bool
  | Event.acquireWrite _ => true
  | Event.releaseWrite _ => true
  | Event.acquireRead _ => true
  | Event.releaseRead _ => true
  | _ => false

/-- Events that mutate durable state (storage writes and deletions, WAL writes
and deletions). -/
def Event.isMutating : Event → Bool
  | Event.putOp _ _ => true
  | Event.delOp _ => true
  | Event.putWALOp _ _ => true
  | Event.delWALOp _ => true
  | _ => false

/-- The error values of the checkout stack. -/
inductive Err where
  | currentlyCheckedOut
  | notCurrentlyCheckedOut
  | notFound
  | checkedOut
  | configUnset
  | decodeFailed
  | remoteUpdateFailed
  | missingRenewalChannel
  | passwordGenFailed
  deriving Repr, DecidableEq

/-- Result of one handler operation: outcome, resulting storage, event trace. -/
abbrev OpResult (α : Type) := Except Err α × Storage × List Event

/-- readConfig: load the engine configuration from storage (key "config").
Returns none when the configuration has never been written. -/
def readConfig (storage : Storage) : Except Err (Option EngineConf) :=
  match storageGet storage StorageKey.configKey with
  | none => Except.ok none
  | some (StorageValue.configVal c) => Except.ok (some c)
  | some _ => Except.error Err.decodeFailed

/-- StorageHandler.CheckOut (checkout_handlers.go): error with
ErrCurrentlyCheckedOut when a record already exists under checkout/ for the
account, otherwise persist the proposed check-out there. -/
def storageHandlerCheckOut (storage : Storage) (name : String) (c : CheckOut) :
    OpResult Unit :=
  match storageGet storage (StorageKey.checkoutKey name) with
  | some _ =>
      (Except.error Err.currentlyCheckedOut, storage,
       [Event.getOp (StorageKey.checkoutKey name)])
  | none =>
      (Except.ok (),
       storagePut storage (StorageKey.checkoutKey name) (StorageValue.checkOutVal c),
       [Event.getOp (StorageKey.checkoutKey name),
        Event.putOp (StorageKey.checkoutKey name) (StorageValue.checkOutVal c)])

/-- StorageHandler.RenewCheckOut: error with ErrNotCurrentlyCheckedOut when no
record exists, otherwise overwrite the record with the renewed check-out. -/
def storageHandlerRenewCheckOut (storage : Storage) (name : String) (c : CheckOut) :
    OpResult Unit :=
  match storageGet storage (StorageKey.checkoutKey name) with
  | none =>
      (Except.error Err.notCurrentlyCheckedOut, storage,
       [Event.getOp (StorageKey.checkoutKey name)])
  | some _ =>
      (Except.ok (),
       storagePut storage (StorageKey.checkoutKey name) (StorageValue.checkOutVal c),
       [Event.getOp (StorageKey.checkoutKey name),
        Event.putOp (StorageKey.checkoutKey name) (StorageValue.checkOutVal c)])

/-- StorageHandler.Delete: remove the checkout/ record. -/
def storageHandlerDelete (storage : Storage) (name : String) : OpResult Unit :=
  (Except.ok (), storageDelete storage (StorageKey.checkoutKey name),
   [Event.delOp (StorageKey.checkoutKey name)])

/-- StorageHandler.CheckIn: checkouts are simply deleted from storage when they
are checked in (delegates to Delete). -/
def storageHandlerCheckIn (storage : Storage) (name : String) : OpResult Unit :=
  storageHandlerDelete storage name

/-- StorageHandler.Status: some record when checked out, none when not, error
when the stored entry cannot be decoded. -/
def storageHandlerStatus (storage : Storage) (name : String) :
    Except Err (Option CheckOut) × Storage × List Event :=
  match storageGet storage (StorageKey.checkoutKey name) with
  | none => (Except.ok none, storage, [Event.getOp (StorageKey.checkoutKey name)])
  | some (StorageValue.checkOutVal c) =>
      (Except.ok (some c), storage, [Event.getOp (StorageKey.checkoutKey name)])
  | some _ =>
      (Except.error Err.decodeFailed, storage,
       [Event.getOp (StorageKey.checkoutKey name)])

/-- retrievePassword (checkout_handlers.go): the stored password of a service
account, ErrNotFound when there is none. -/
def retrievePassword (storage : Storage) (name : String) : Except Err String :=
  match storageGet storage (StorageKey.passwordKey name) with
  | none => Except.error Err.notFound
  | some (StorageValue.passwordVal p) => Except.ok p
  | some _ => Except.error Err.decodeFailed

/-- PasswordHandler.CheckOut: pure pass-through to the StorageHandler. -/
def passwordHandlerCheckOut (storage : Storage) (name : String) (c : CheckOut) :
    OpResult Unit :=
  storageHandlerCheckOut storage name c

/-- PasswordHandler.RenewCheckOut: pure pass-through to the StorageHandler. -/
def passwordHandlerRenewCheckOut (storage : Storage) (name : String) (c : CheckOut) :
    OpResult Unit :=
  storageHandlerRenewCheckOut storage name c

/-- PasswordHandler.CheckIn (checkout_handlers.go, the variant without a WAL):
read the engine configuration, generate a new password, update it remotely,
persist it under password/, then delegate the check-in to the StorageHandler.
The password generator and remote client are the external collaborators, passed
as oracles: gen models util.GeneratePassword on the configured policy and client
models secretsClient.UpdatePassword returning whether the remote call succeeded. -/
def passwordHandlerCheckIn (gen : EngineConf → Except Err String)
    (client : String → String → Except Err Unit) (storage : Storage) (name : String) :
    OpResult Unit :=
  match readConfig storage with
  | Except.error e => (Except.error e, storage, [Event.getOp StorageKey.configKey])
  | Except.ok none =>
      (Except.error Err.configUnset, storage, [Event.getOp StorageKey.configKey])
  | Except.ok (some conf) =>
      match gen conf with
      | Except.error e =>
          (Except.error e, storage, [Event.getOp StorageKey.configKey])
      | Except.ok newPassword =>
          match client name newPassword with
          | Except.error e2 =>
              (Except.error e2, storage,
               [Event.getOp StorageKey.configKey,
                Event.updatePasswordOp name newPassword false])
          | Except.ok _ =>
              let storage1 :=
                storagePut storage (StorageKey.passwordKey name)
                  (StorageValue.passwordVal newPassword)
              let inner := storageHandlerCheckIn storage1 name
              (inner.1, inner.2.1,
               Event.getOp StorageKey.configKey ::
                 Event.updatePasswordOp name newPassword true ::
                 Event.putOp (StorageKey.passwordKey name)
                   (StorageValue.passwordVal newPassword) :: inner.2.2)

/-- PasswordHandler.Delete: delete the stored password, then delegate inward. -/
def passwordHandlerDelete (storage : Storage) (name : String) : OpResult Unit :=
  let storage1 := storageDelete storage (StorageKey.passwordKey name)
  let inner := storageHandlerDelete storage1 name
  (inner.1, inner.2.1, Event.delOp (StorageKey.passwordKey name) :: inner.2.2)

/-- PasswordHandler.Status: pure pass-through to the StorageHandler. -/
def passwordHandlerStatus (storage : Storage) (name : String) :
    Except Err (Option CheckOut) × Storage × List Event :=
  storageHandlerStatus storage name

/-- ServiceAccountLocker.CheckOut: hold the exclusive per-account lock for the
duration of the inner work (lock.Lock / defer lock.Unlock around the delegate). -/
def lockerCheckOut (storage : Storage) (name : String)
    (c : CheckOut) : OpResult Unit :=
  let inner := passwordHandlerCheckOut storage name c
  (inner.1, inner.2.1,
   Event.acquireWrite name :: inner.2.2 ++ [Event.releaseWrite name])

/-- ServiceAccountLocker.RenewCheckOut: exclusive per-account lock around the
delegate. -/
def lockerRenewCheckOut (storage : Storage) (name : String) (c : CheckOut) :
    OpResult Unit :=
  let inner := passwordHandlerRenewCheckOut storage name c
  (inner.1, inner.2.1,
   Event.acquireWrite name :: inner.2.2 ++ [Event.releaseWrite name])

/-- ServiceAccountLocker.CheckIn: exclusive per-account lock around the delegate. -/
def lockerCheckIn (gen : EngineConf → Except Err String)
    (client : String → String → Except Err Unit) (storage : Storage) (name : String) :
    OpResult Unit :=
  let inner := passwordHandlerCheckIn gen client storage name
  (inner.1, inner.2.1,
   Event.acquireWrite name :: inner.2.2 ++ [Event.releaseWrite name])

/-- ServiceAccountLocker.Delete: exclusive per-account lock around the delegate. -/
def lockerDelete (storage : Storage) (name : String) : OpResult Unit :=
  let inner := passwordHandlerDelete storage name
  (inner.1, inner.2.1,
   Event.acquireWrite name :: inner.2.2 ++ [Event.releaseWrite name])

/-- ServiceAccountLocker.Status: shared (read) per-account lock around the
delegate (lock.RLock / defer lock.RUnlock). -/
def lockerStatus (storage : Storage) (name : String) :
    Except Err (Option CheckOut) × Storage × List Event :=
  let inner := passwordHandlerStatus storage name
  (inner.1, inner.2.1,
   Event.acquireRead name :: inner.2.2 ++ [Event.releaseRead name])

/-- In-memory state of the OverdueWatcher: the latest storage handle it has
seen (updateStorage), the set of service accounts with a registered renewal
channel (renewalChans), the goroutines spawned by CheckOut via go startWatching
that have not run yet (each carries the due time it was spawned with), and the
armed timers of running watcher goroutines with their current due time. -/
structure WatcherState where
  latestStorage : Storage
  renewalChans : List String
  spawned : List (String × Int)
  timers : List (String × Int)
  deriving Repr, DecidableEq

/-- The registration a startWatching goroutine performs when it runs (lines that
create the renewal channel, publish it in renewalChans and arm the lending
period timer for the due time). -/
def startWatchingReg (w : WatcherState) (name : String) (due : Int) : WatcherState :=
  { w with renewalChans := name :: w.renewalChans, timers := (name, due) :: w.timers }

/-- OverdueWatcher.stopWatching: when a renewal channel is registered for the
account, close it and drop it (the watcher goroutine exits, its timer dies);
otherwise do nothing. -/
def stopWatching (w : WatcherState) (name : String) : WatcherState :=
  if name ∈ w.renewalChans then
    { w with renewalChans := w.renewalChans.erase name,
             timers := w.timers.filter (fun t => ¬ (t.1 = name)) }
  else w

/-- OverdueWatcher.CheckOut: update the latest storage handle, delegate inward,
and on success spawn (go startWatching) a watcher goroutine for the due time.
The spawned goroutine has not yet registered its renewal channel: that happens
only when it runs, which the caller does not wait for. -/
def owCheckOut (w : WatcherState) (storage : Storage) (name : String)
    (c : CheckOut) : Except Err Unit × WatcherState × Storage × List Event :=
  let w1 := { w with latestStorage := storage }
  match lockerCheckOut storage name c with
  | (Except.error e, storage1, tr) => (Except.error e, w1, storage1, tr)
  | (Except.ok _, storage1, tr) =>
      (Except.ok (), { w1 with spawned := (name, c.due) :: w1.spawned }, storage1, tr)

/-- OverdueWatcher.RenewCheckOut: delegate inward (which persists the renewed
check-out), then push the new due time onto the renewal channel; when no
renewal channel is registered for the account, return the missing renewal
channel error - after the delegate has already persisted the renewal. -/
def owRenewCheckOut (w : WatcherState) (storage : Storage) (name : String)
    (c : CheckOut) : Except Err Unit × WatcherState × Storage × List Event :=
  let w1 := { w with latestStorage := storage }
  match lockerRenewCheckOut storage name c with
  | (Except.error e, storage1, tr) => (Except.error e, w1, storage1, tr)
  | (Except.ok _, storage1, tr) =>
      if name ∈ w1.renewalChans then (Except.ok (), w1, storage1, tr)
      else (Except.error Err.missingRenewalChannel, w1, storage1, tr)

/-- OverdueWatcher.CheckIn: delegate inward, then stop watching the account. -/
def owCheckIn (gen : EngineConf → Except Err String)
    (client : String → String → Except Err Unit) (w : WatcherState) (storage : Storage)
    (name : String) : Except Err Unit × WatcherState × Storage × List Event :=
  let w1 := { w with latestStorage := storage }
  match lockerCheckIn gen client storage name with
  | (Except.error e, storage1, tr) => (Except.error e, w1, storage1, tr)
  | (Except.ok _, storage1, tr) => (Except.ok (), stopWatching w1 name, storage1, tr)

/-- OverdueWatcher.Delete: delegate inward, then stop watching the account. -/
def owDelete (w : WatcherState) (storage : Storage) (name : String) :
    Except Err Unit × WatcherState × Storage × List Event :=
  let w1 := { w with latestStorage := storage }
  match lockerDelete storage name with
  | (Except.error e, storage1, tr) => (Except.error e, w1, storage1, tr)
  | (Except.ok _, storage1, tr) => (Except.ok (), stopWatching w1 name, storage1, tr)

/-- OverdueWatcher.Status: update the latest storage handle and pass the status
request through. -/
def owStatus (w : WatcherState) (storage : Storage) (name : String) :
    Except Err (Option CheckOut) × WatcherState × Storage × List Event :=
  let w1 := { w with latestStorage := storage }
  let inner := lockerStatus storage name
  (inner.1, w1, inner.2.1, inner.2.2)

/-- The per-account body of the reclamation bootstrap loop in NewCheckOutHandler
(leader only): read the account status through the handler stack; skip accounts
with no checkout record; check in immediately when the stored due time is not
after the current time; otherwise call startWatching directly to arm a watcher
with the stored due time. -/
def bootstrapAccount (gen : EngineConf → Except Err String)
    (client : String → String → Except Err Unit) (w : WatcherState) (storage : Storage)
    (now : Int) (name : String) :
    Except Err (WatcherState × Storage) × List Event :=
  match owStatus w storage name with
  | (Except.error e, _, _, tr) => (Except.error e, tr)
  | (Except.ok none, w1, storage1, tr) => (Except.ok (w1, storage1), tr)
  | (Except.ok (some c), w1, storage1, tr) =>
      if c.due > now then
        (Except.ok (startWatchingReg w1 name c.due, storage1), tr)
      else
        match owCheckIn gen client w1 storage1 name with
        | (Except.error e, _, _, tr2) => (Except.error e, tr ++ tr2)
        | (Except.ok _, w2, storage2, tr2) => (Except.ok (w2, storage2), tr ++ tr2)

/-- The bootstrap loop over the service accounts of one reserve. -/
def bootstrapAccounts (gen : EngineConf → Except Err String)
    (client : String → String → Except Err Unit) (w : WatcherState) (storage : Storage)
    (now : Int) : List String → Except Err (WatcherState × Storage) × List Event
  | [] => (Except.ok (w, storage), [])
  | n :: rest =>
      match bootstrapAccount gen client w storage now n with
      | (Except.error e, tr) => (Except.error e, tr)
      | (Except.ok (w1, storage1), tr) =>
          let r := bootstrapAccounts gen client w1 storage1 now rest
          (r.1, tr ++ r.2)

/-- The names stored under the reserve/ prefix (storage.List). -/
def storageListReserves (storage : Storage) : List String :=
  storage.filterMap (fun e =>
    match e.1 with
    | StorageKey.reserveKey n => some n
    | _ => none)

/-- The outer reclamation bootstrap loop of NewCheckOutHandler: for every
configured reserve, decode it and process each of its service accounts. -/
def bootstrapReserves (gen : EngineConf → Except Err String)
    (client : String → String → Except Err Unit) (w : WatcherState) (storage : Storage)
    (now : Int) : List String → Except Err (WatcherState × Storage) × List Event
  | [] => (Except.ok (w, storage), [])
  | rn :: rest =>
      match storageGet storage (StorageKey.reserveKey rn) with
      | some (StorageValue.reserveVal reserve) =>
          match bootstrapAccounts gen client w storage now reserve.serviceAccountNames with
          | (Except.error e, tr) => (Except.error e, tr)
          | (Except.ok (w1, storage1), tr) =>
              let r := bootstrapReserves gen client w1 storage1 now rest
              (r.1, tr ++ r.2)
      | _ => (Except.error Err.decodeFailed, [Event.getOp (StorageKey.reserveKey rn)])

/-- A recovery log (WAL) entry of the password-rotation check-in protocol:
framework.PutWAL("password-update", {service_account_name, new_password}). -/
structure WalEntry where
  id : Nat
  serviceAccountName : String
  newPassword : String
  deriving Repr, DecidableEq

/-- State of the recovery-log variant of the password handler: the durable
storage, the durable recovery log, and the next WAL id handed out. -/
structure WalState where
  storage : Storage
  wal : List WalEntry
  nextWalId : Nat
  deriving Repr, DecidableEq

/-- StorageHandler.CheckIn of the recovery-log era, in which checkout records
lived under the library/ keys: delete the record. -/
def walStorageHandlerCheckIn (storage : Storage) (name : String) : OpResult Unit :=
  (Except.ok (), storageDelete storage (StorageKey.libraryKey name),
   [Event.delOp (StorageKey.libraryKey name)])

/-- PasswordHandler.CheckIn of the recovery-log variant: read the engine
configuration, generate a new password, durably record the intent in the
recovery log (framework.PutWAL) before any remote mutation, call the remote
client, and only after the remote update succeeded persist the new password and
delete the recovery log entry (framework.DeleteWAL), then delegate the check-in
to the storage layer. -/
def walPasswordCheckIn (gen : EngineConf → Except Err String)
    (client : String → String → Except Err Unit) (st : WalState) (name : String) :
    Except Err Unit × WalState × List Event :=
  match readConfig st.storage with
  | Except.error e => (Except.error e, st, [Event.getOp StorageKey.configKey])
  | Except.ok none =>
      (Except.error Err.configUnset, st, [Event.getOp StorageKey.configKey])
  | Except.ok (some conf) =>
      match gen conf with
      | Except.error e => (Except.error e, st, [Event.getOp StorageKey.configKey])
      | Except.ok newPassword =>
          let walId := st.nextWalId
          let st1 : WalState :=
            { st with wal := st.wal ++ [⟨walId, name, newPassword⟩],
                      nextWalId := walId + 1 }
          match client name newPassword with
          | Except.error e2 =>
              (Except.error e2, st1,
               [Event.getOp StorageKey.configKey,
                Event.putWALOp name newPassword,
                Event.updatePasswordOp name newPassword false])
          | Except.ok _ =>
              let storage1 :=
                storagePut st1.storage (StorageKey.passwordKey name)
                  (StorageValue.passwordVal newPassword)
              let st2 : WalState :=
                { st1 with storage := storage1,
                           wal := st1.wal.filter (fun e => ¬ (e.id = walId)) }
              let inner := walStorageHandlerCheckIn st2.storage name
              (inner.1, { st2 with storage := inner.2.1 },
               Event.getOp StorageKey.configKey ::
                 Event.putWALOp name newPassword ::
                 Event.updatePasswordOp name newPassword true ::
                 Event.putOp (StorageKey.passwordKey name)
                   (StorageValue.passwordVal newPassword) ::
                 Event.delWALOp walId :: inner.2.2)

/-- Modelled from the spec: LoadCheckOut of the final checkOutHandler (file
checkout_handler.go, absent from the source tree; only its test and callers are
present).  Spec section 4.1 Status: return the current CheckOut record, or the
NotFound signal when the account has never been tracked. -/
def finalLoadCheckOut (storage : Storage) (name : String) : Except Err CheckOutV2 :=
  match storageGet storage (StorageKey.checkoutKey name) with
  | none => Except.error Err.notFound
  | some (StorageValue.checkOutV2Val c) => Except.ok c
  | some _ => Except.error Err.decodeFailed

/-- Modelled from the spec: the storage step of the final check-in, which
persists a record with isAvailable=true, clearing the borrower fields, instead
of deleting the record (spec section 4.1 CheckIn). -/
def finalStorageCheckIn (storage : Storage) (name : String) : Storage :=
  storagePut storage (StorageKey.checkoutKey name)
    (StorageValue.checkOutV2Val
      { isAvailable := true, borrowerEntityID := "", borrowerClientToken := "",
        lendingPeriod := 0, due := 0 })

/-- Modelled from the spec: CheckIn of the final checkOutHandler (absent from
the source tree).  Spec section 4.2: load the configuration (fail fast if
unset), generate a new password, set it remotely, persist it, then flip the
availability record to isAvailable=true with cleared borrower fields. -/
def finalCheckIn (gen : EngineConf → Except Err String)
    (client : String → String → Except Err Unit) (storage : Storage) (name : String) :
    Except Err Unit × Storage :=
  match readConfig storage with
  | Except.error e => (Except.error e, storage)
  | Except.ok none => (Except.error Err.configUnset, storage)
  | Except.ok (some conf) =>
      match gen conf with
      | Except.error e => (Except.error e, storage)
      | Except.ok newPassword =>
          match client name newPassword with
          | Except.error e2 => (Except.error e2, storage)
          | Except.ok _ =>
              let storage1 :=
                storagePut storage (StorageKey.passwordKey name)
                  (StorageValue.passwordVal newPassword)
              (Except.ok (), finalStorageCheckIn storage1 name)

/-- Modelled from the spec: CheckOut of the final checkOutHandler (absent from
the source tree).  Spec section 4.1: fail with the checked-out error when the
existing record has isAvailable=false, otherwise persist the proposed check-out
(whose isAvailable flag the caller sets to false). -/
def finalCheckOut (storage : Storage) (name : String) (proposed : CheckOutV2) :
    Except Err Unit × Storage :=
  match finalLoadCheckOut storage name with
  | Except.error e => (Except.error e, storage)
  | Except.ok cur =>
      if cur.isAvailable then
        (Except.ok (),
         storagePut storage (StorageKey.checkoutKey name)
           (StorageValue.checkOutV2Val proposed))
      else (Except.error Err.checkedOut, storage)

/-- readSet of path_checkout_sets.go: a librarySet from storage by name, none
when it does not exist. -/
def readSet (storage : Storage) (setName : String) : Except Err (Option LibrarySet) :=
  match storageGet storage (StorageKey.libraryKey setName) with
  | none => Except.ok none
  | some (StorageValue.setVal s) => Except.ok (some s)
  | some _ => Except.error Err.decodeFailed

/-- The checkOut helper of the backend (path_checkouts 254-267 of the set
check-out file): under the per-account lock, check the account out through the
handler and then read its stored password. -/
def backendCheckOut (storage : Storage) (name : String) (newCheckOut : CheckOutV2) :
    Except Err String × Storage :=
  match finalCheckOut storage name newCheckOut with
  | (Except.error e, storage1) => (Except.error e, storage1)
  | (Except.ok _, storage1) =>
      match retrievePassword storage1 name with
      | Except.error e => (Except.error e, storage1)
      | Except.ok pw => (Except.ok pw, storage1)

/-- Outcome of operationSetCheckOut: an internal error (nil response with err),
an error response (set does not exist), a successful check-out response with the
lease metadata of the secret, or the 429 capacity response with its warning. -/
inductive SetCheckOutResult where
  | internalErr (e : Err)
  | errResponse (msg : String)
  | checkedOutResp (serviceAccountName password : String) (renewable : Bool)
      (ttl maxTTL : Int)
  | unavailable (statusCode : Nat) (warning : String)
  deriving Repr, DecidableEq

/-- The member loop of operationSetCheckOut: try each service account of the set
in stored order; on the checked-out error move on to the next, on any other
error abort, on success answer with the account, its password and the lease
metadata; when no member was available answer 429 with a warning. -/
def setCheckOutLoop (storage : Storage) (newCheckOut : CheckOutV2)
    (ttl maxTTL : Int) : List String → SetCheckOutResult × Storage
  | [] =>
      (SetCheckOutResult.unavailable 429 "No service accounts available for check-out.",
       storage)
  | n :: rest =>
      match backendCheckOut storage n newCheckOut with
      | (Except.error Err.checkedOut, storage1) =>
          setCheckOutLoop storage1 newCheckOut ttl maxTTL rest
      | (Except.error e, storage1) => (SetCheckOutResult.internalErr e, storage1)
      | (Except.ok pw, storage1) =>
          (SetCheckOutResult.checkedOutResp n pw true ttl maxTTL, storage1)

/-- The request fields of a set check-out: set name, whether a ttl was sent and
its value in seconds, and the identity of the caller. -/
structure SetCheckOutInput where
  setName : String
  ttlSent : Bool
  requestedTTL : Int
  entityID : String
  clientToken : String
  deriving Repr, DecidableEq

/-- operationSetCheckOut: resolve the set, compute the effective ttl (a sent ttl
shortens a finite set ttl, or bounds an infinite one), build the proposed
check-out carrying the borrower identity, and run the member loop. -/
def operationSetCheckOut (storage : Storage) (inp : SetCheckOutInput) :
    SetCheckOutResult × Storage :=
  let requestedTTL := if inp.ttlSent then inp.requestedTTL else 0
  match readSet storage inp.setName with
  | Except.error e => (SetCheckOutResult.internalErr e, storage)
  | Except.ok none =>
      (SetCheckOutResult.errResponse (inp.setName ++ " does not exist"), storage)
  | Except.ok (some set) =>
      let ttl :=
        if inp.ttlSent then
          if set.ttl ≤ 0 ∧ requestedTTL > 0 then requestedTTL
          else if set.ttl > 0 ∧ requestedTTL < set.ttl then requestedTTL
          else set.ttl
        else set.ttl
      let newCheckOut : CheckOutV2 :=
        { isAvailable := false, borrowerEntityID := inp.entityID,
          borrowerClientToken := inp.clientToken, lendingPeriod := 0, due := 0 }
      setCheckOutLoop storage newCheckOut ttl set.maxTTL set.serviceAccountNames

/-- Availability of a set member in the final data model: its checkout record
exists and has isAvailable=true. -/
def memberAvailable (storage : Storage) (name : String) : Bool :=
  match storageGet storage (StorageKey.checkoutKey name) with
  | some (StorageValue.checkOutV2Val c) => c.isAvailable
  | _ => false

/-! Basic laws of the storage model. -/

theorem storageGet_nil (k : StorageKey) : storageGet [] k = none := rfl

theorem storageGet_cons (e : StorageKey × StorageValue) (t : Storage)
    (k : StorageKey) :
    storageGet (e :: t) k = if e.1 = k then some e.2 else storageGet t k := by
  by_cases he : e.1 = k <;> simp [storageGet, List.find?, he]

theorem storageGet_filter_ne (t : Storage) (k k' : StorageKey) (h : ¬ k' = k) :
    storageGet (t.filter (fun e => !decide (e.1 = k))) k' = storageGet t k' := by
  have hk : ¬ k = k' := fun h2 => h h2.symm
  induction t with
  | nil => rfl
  | cons e t ih =>
      by_cases he : e.1 = k
      · simp [List.filter_cons, he, storageGet_cons, hk, ih]
      · by_cases he' : e.1 = k'
        · simp [List.filter_cons, he, storageGet_cons, he', h]
        · simp [List.filter_cons, he, storageGet_cons, he', ih]

theorem storageGet_put_same (s : Storage) (k : StorageKey) (v : StorageValue) :
    storageGet (storagePut s k v) k = some v := by
  simp [storagePut, storageGet_cons]

theorem storageGet_put_ne (s : Storage) (k : StorageKey) (v : StorageValue)
    (k' : StorageKey) (h : ¬ k' = k) :
    storageGet (storagePut s k v) k' = storageGet s k' := by
  have hk : ¬ k = k' := fun h2 => h h2.symm
  simp [storagePut, storageGet_cons, hk]
  exact storageGet_filter_ne s k k' h

theorem storageGet_delete_same (s : Storage) (k : StorageKey) :
    storageGet (storageDelete s k) k = none := by
  induction s with
  | nil => rfl
  | cons e t ih =>
      by_cases he : e.1 = k <;>
        simp [storageDelete, List.filter_cons, he, storageGet_cons] at ih ⊢ <;>
        exact ih

theorem storageGet_delete_ne (s : Storage) (k k' : StorageKey) (h : ¬ k' = k) :
    storageGet (storageDelete s k) k' = storageGet s k' := by
  simpa [storageDelete] using storageGet_filter_ne s k k' h

theorem storageDelete_of_get_none (s : Storage) (k : StorageKey)
    (h : storageGet s k = none) : storageDelete s k = s := by
  induction s with
  | nil => rfl
  | cons e t ih =>
      by_cases he : e.1 = k
      · rw [storageGet_cons, if_pos he] at h
        exact absurd h (by simp)
      · rw [storageGet_cons, if_neg he] at h
        simp [storageDelete, List.filter_cons, he] at ih ⊢
        exact ih h

/-! Helper lemmas about the handler layers. -/

theorem storageHandlerCheckOut_noLock (storage : Storage) (name : String)
    (c : CheckOut) :
    ((storageHandlerCheckOut storage name c).2.2).all (fun e => !e.isLock) = true := by
  cases hget : storageGet storage (StorageKey.checkoutKey name) <;>
    simp [storageHandlerCheckOut, hget, Event.isLock]

theorem storageHandlerRenewCheckOut_noLock (storage : Storage) (name : String)
    (c : CheckOut) :
    ((storageHandlerRenewCheckOut storage name c).2.2).all (fun e => !e.isLock) = true := by
  cases hget : storageGet storage (StorageKey.checkoutKey name) <;>
    simp [storageHandlerRenewCheckOut, hget, Event.isLock]

theorem storageHandlerStatus_noLock (storage : Storage) (name : String) :
    ((storageHandlerStatus storage name).2.2).all (fun e => !e.isLock) = true := by
  cases hget : storageGet storage (StorageKey.checkoutKey name) with
  | none => simp [storageHandlerStatus, hget, Event.isLock]
  | some v => cases v <;> simp [storageHandlerStatus, hget, Event.isLock]

theorem passwordHandlerCheckIn_noLock (gen : EngineConf → Except Err String)
    (client : String → String → Except Err Unit) (storage : Storage) (name : String) :
    ((passwordHandlerCheckIn gen client storage name).2.2).all
      (fun e => !e.isLock) = true := by
  unfold passwordHandlerCheckIn
  cases hconf : readConfig storage with
  | error e => simp [Event.isLock]
  | ok oc =>
      cases oc with
      | none => simp [Event.isLock]
      | some conf =>
          cases hgen : gen conf with
          | error e => simp [hgen, Event.isLock]
          | ok pw =>
              cases hcl : client name pw with
              | error e2 => simp [hgen, hcl, Event.isLock]
              | ok u =>
                  simp [hgen, hcl, storageHandlerCheckIn, storageHandlerDelete,
                    Event.isLock]

theorem passwordHandlerDelete_noLock (storage : Storage) (name : String) :
    ((passwordHandlerDelete storage name).2.2).all (fun e => !e.isLock) = true := by
  simp [passwordHandlerDelete, storageHandlerDelete, Event.isLock]

/-- A successful password-handler check-in always ends by deleting the checkout
record, so the account does not remain checked out. -/
theorem passwordHandlerCheckIn_ok_get_none (gen : EngineConf → Except Err String)
    (client : String → String → Except Err Unit) (storage : Storage) (name : String)
    (h : (passwordHandlerCheckIn gen client storage name).1 = Except.ok ()) :
    storageGet (passwordHandlerCheckIn gen client storage name).2.1
      (StorageKey.checkoutKey name) = none := by
  unfold passwordHandlerCheckIn at h ⊢
  cases hconf : readConfig storage with
  | error e => simp [hconf] at h
  | ok oc =>
      cases oc with
      | none => simp [hconf] at h
      | some conf =>
          simp only [hconf] at h ⊢
          cases hgen : gen conf with
          | error e => simp [hgen] at h
          | ok pw =>
              simp only [hgen] at h ⊢
              cases hcl : client name pw with
              | error e2 => simp [hcl] at h
              | ok u =>
                  simp only [hcl]
                  simp [storageHandlerCheckIn, storageHandlerDelete,
                    storageGet_delete_same]

/-- A successful check-in through the overdue watcher leaves no checkout record
in the resulting storage. -/
theorem owCheckIn_ok_get_none (gen : EngineConf → Except Err String)
    (client : String → String → Except Err Unit) (w : WatcherState) (storage : Storage)
    (name : String)
    (h : (owCheckIn gen client w storage name).1 = Except.ok ()) :
    storageGet (owCheckIn gen client w storage name).2.2.1
      (StorageKey.checkoutKey name) = none := by
  unfold owCheckIn lockerCheckIn at h ⊢
  cases hr : (passwordHandlerCheckIn gen client storage name).1 with
  | error e => simp [hr] at h
  | ok u =>
      cases u
      simp only [hr]
      exact passwordHandlerCheckIn_ok_get_none gen client storage name hr

/-- When every member of the list is tracked and unavailable, the set check-out
loop falls through to the 429 capacity response and leaves storage unchanged. -/
theorem setCheckOutLoop_none_available (nc : CheckOutV2) (ttl maxTTL : Int) :
    ∀ (names : List String) (storage : Storage),
      (∀ n ∈ names, ∃ c, storageGet storage (StorageKey.checkoutKey n) =
          some (StorageValue.checkOutV2Val c) ∧ c.isAvailable = false) →
      setCheckOutLoop storage nc ttl maxTTL names =
        (SetCheckOutResult.unavailable 429
          "No service accounts available for check-out.", storage)
  | [], _, _ => rfl
  | n :: rest, storage, h => by
      obtain ⟨c, hc, hca⟩ := h n (List.mem_cons_self n rest)
      have hb : backendCheckOut storage n nc = (Except.error Err.checkedOut, storage) := by
        simp [backendCheckOut, finalCheckOut, finalLoadCheckOut, hc, hca]
      simp only [setCheckOutLoop, hb]
      exact setCheckOutLoop_none_available nc ttl maxTTL rest storage
        (fun x hx => h x (List.mem_cons_of_mem _ hx))

/-- When every member of the list is tracked and some member is available, the
set check-out loop checks out the first available one (in stored member order)
and answers with its password. -/
theorem setCheckOutLoop_first_available (nc : CheckOutV2) (ttl maxTTL : Int) :
    ∀ (names : List String) (storage : Storage) (m pw : String),
      (∀ n ∈ names, ∃ c, storageGet storage (StorageKey.checkoutKey n) =
          some (StorageValue.checkOutV2Val c)) →
      names.find? (fun n => memberAvailable storage n) = some m →
      storageGet storage (StorageKey.passwordKey m) =
        some (StorageValue.passwordVal pw) →
      setCheckOutLoop storage nc ttl maxTTL names =
        (SetCheckOutResult.checkedOutResp m pw true ttl maxTTL,
         storagePut storage (StorageKey.checkoutKey m) (StorageValue.checkOutV2Val nc))
  | [], _, _, _, _, hfind, _ => by simp at hfind
  | n :: rest, storage, m, pw, hall, hfind, hpw => by
      cases hav : memberAvailable storage n with
      | true =>
          have hm : m = n := by
            rw [List.find?_cons_of_pos _ hav] at hfind
            exact (Option.some.injEq _ _ ▸ hfind).symm
          subst hm
          obtain ⟨c, hc⟩ := hall m (List.mem_cons_self m rest)
          have hca : c.isAvailable = true := by
            unfold memberAvailable at hav
            rw [hc] at hav
            exact hav
          have hb : backendCheckOut storage m nc =
              (Except.ok pw,
               storagePut storage (StorageKey.checkoutKey m)
                 (StorageValue.checkOutV2Val nc)) := by
            have hne : ¬ (StorageKey.passwordKey m = StorageKey.checkoutKey m) := by
              simp
            simp [backendCheckOut, finalCheckOut, finalLoadCheckOut, hc, hca,
              retrievePassword, storageGet_put_ne _ _ _ _ hne, hpw]
          simp only [setCheckOutLoop, hb]
      | false =>
          have hfind2 : rest.find? (fun x => memberAvailable storage x) = some m := by
            rw [List.find?_cons_of_neg _ (by simp [hav])] at hfind
            exact hfind
          obtain ⟨c, hc⟩ := hall n (List.mem_cons_self n rest)
          have hca : c.isAvailable = false := by
            unfold memberAvailable at hav
            rw [hc] at hav
            exact hav
          have hb : backendCheckOut storage n nc =
              (Except.error Err.checkedOut, storage) := by
            simp [backendCheckOut, finalCheckOut, finalLoadCheckOut, hc, hca]
          simp only [setCheckOutLoop, hb]
          exact setCheckOutLoop_first_available nc ttl maxTTL rest storage m pw
            (fun x hx => hall x (List.mem_cons_of_mem _ hx)) hfind2 hpw

/-! The claims. -/

/-- C1: after a successful CheckIn (final data model, in which check-in persists
an availability record instead of deleting the checkout record), the persisted
state records the account as available with the borrower fields cleared: the
storage holds a record with isAvailable=true and empty borrower fields, and a
subsequent Status (LoadCheckOut) reports exactly that record. -/
theorem checkIn_persists_available (gen : EngineConf → Except Err String)
    (client : String → String → Except Err Unit) (storage : Storage) (name : String)
    (h : (finalCheckIn gen client storage name).1 = Except.ok ()) :
    storageGet (finalCheckIn gen client storage name).2
        (StorageKey.checkoutKey name) =
      some (StorageValue.checkOutV2Val
        { isAvailable := true, borrowerEntityID := "", borrowerClientToken := "",
          lendingPeriod := 0, due := 0 }) ∧
    finalLoadCheckOut (finalCheckIn gen client storage name).2 name =
      Except.ok
        { isAvailable := true, borrowerEntityID := "", borrowerClientToken := "",
          lendingPeriod := 0, due := 0 } := by
  unfold finalCheckIn at h ⊢
  cases hconf : readConfig storage with
  | error e => simp [hconf] at h
  | ok oc =>
      cases oc with
      | none => simp [hconf] at h
      | some conf =>
          simp only [hconf] at h ⊢
          cases hgen : gen conf with
          | error e => simp [hgen] at h
          | ok pw =>
              simp only [hgen] at h ⊢
              cases hcl : client name pw with
              | error e2 => simp [hcl] at h
              | ok u =>
                simp only [hcl]
                have hput := storageGet_put_same
                  (storagePut storage (StorageKey.passwordKey name)
                    (StorageValue.passwordVal pw))
                  (StorageKey.checkoutKey name)
                  (StorageValue.checkOutV2Val
                    { isAvailable := true, borrowerEntityID := "",
                      borrowerClientToken := "", lendingPeriod := 0, due := 0 })
                refine ⟨?_, ?_⟩
                · simpa [finalStorageCheckIn] using hput
                · simp [finalLoadCheckOut, finalStorageCheckIn, hput]

/-- C1 witness: a concrete successful check-in on an account of a storage that
holds a configuration, evaluated. -/
theorem checkIn_persists_available_witness :
    (finalCheckIn (fun _ => Except.ok "newpw") (fun _ _ => Except.ok ())
        [(StorageKey.configKey, StorageValue.configVal { formatter := "", length := 14 })]
        "becca").1 = Except.ok () ∧
    finalLoadCheckOut
      (finalCheckIn (fun _ => Except.ok "newpw") (fun _ _ => Except.ok ())
        [(StorageKey.configKey, StorageValue.configVal { formatter := "", length := 14 })]
        "becca").2 "becca" =
      Except.ok
        { isAvailable := true, borrowerEntityID := "", borrowerClientToken := "",
          lendingPeriod := 0, due := 0 } :=
  ⟨rfl,
   (checkIn_persists_available (fun _ => Except.ok "newpw") (fun _ _ => Except.ok ())
      [(StorageKey.configKey, StorageValue.configVal { formatter := "", length := 14 })]
      "becca" rfl).2⟩

/-- C3: a CheckOut of a currently checked out service account (an existing
record under the checkout key) fails with ErrCurrentlyCheckedOut and leaves the
stored record unchanged; in particular a CheckOut immediately following a
successful CheckOut with no intervening CheckIn fails with
ErrCurrentlyCheckedOut. -/
theorem checkOut_alreadyCheckedOut (storage : Storage) (name : String)
    (c c2 : CheckOut) :
    (∀ v, storageGet storage (StorageKey.checkoutKey name) = some v →
       (storageHandlerCheckOut storage name c).1 =
         Except.error Err.currentlyCheckedOut ∧
       (storageHandlerCheckOut storage name c).2.1 = storage) ∧
    ((storageHandlerCheckOut storage name c).1 = Except.ok () →
       (storageHandlerCheckOut (storageHandlerCheckOut storage name c).2.1
           name c2).1 = Except.error Err.currentlyCheckedOut ∧
       (storageHandlerCheckOut (storageHandlerCheckOut storage name c).2.1
           name c2).2.1 = (storageHandlerCheckOut storage name c).2.1) := by
  constructor
  · intro v hv
    simp [storageHandlerCheckOut, hv]
  · intro hok
    cases hget : storageGet storage (StorageKey.checkoutKey name) with
    | some v => simp [storageHandlerCheckOut, hget] at hok
    | none =>
        have hs : (storageHandlerCheckOut storage name c).2.1 =
            storagePut storage (StorageKey.checkoutKey name)
              (StorageValue.checkOutVal c) := by
          simp [storageHandlerCheckOut, hget]
        rw [hs]
        simp [storageHandlerCheckOut, storageGet_put_same]

/-- C3 witness: checking out a fresh account succeeds, and the immediate second
check-out fails with ErrCurrentlyCheckedOut. -/
theorem checkOut_alreadyCheckedOut_witness :
    (storageHandlerCheckOut [] "becca"
        { borrowerEntityID := "e", borrowerClientToken := "t",
          lendingPeriod := 1, due := 10 }).1 = Except.ok () ∧
    (storageHandlerCheckOut
        (storageHandlerCheckOut [] "becca"
          { borrowerEntityID := "e", borrowerClientToken := "t",
            lendingPeriod := 1, due := 10 }).2.1 "becca"
        { borrowerEntityID := "e2", borrowerClientToken := "t2",
          lendingPeriod := 1, due := 20 }).1 =
      Except.error Err.currentlyCheckedOut :=
  ⟨rfl,
   ((checkOut_alreadyCheckedOut [] "becca"
      { borrowerEntityID := "e", borrowerClientToken := "t",
        lendingPeriod := 1, due := 10 }
      { borrowerEntityID := "e2", borrowerClientToken := "t2",
        lendingPeriod := 1, due := 20 }).2 rfl).1⟩

/-- C10: Status is read-only with respect to durable storage at every layer of
the checkout handler stack: for every storage state and account, the Status of
the StorageHandler, the PasswordHandler, the ServiceAccountLocker and the
OverdueWatcher returns the storage unchanged, and its event trace contains no
storage or WAL mutation - whether the call succeeds or fails. -/
theorem status_readOnly (w : WatcherState) (storage : Storage) (name : String) :
    ((storageHandlerStatus storage name).2.1 = storage ∧
     ((storageHandlerStatus storage name).2.2).all (fun e => !e.isMutating) = true) ∧
    ((passwordHandlerStatus storage name).2.1 = storage ∧
     ((passwordHandlerStatus storage name).2.2).all (fun e => !e.isMutating) = true) ∧
    ((lockerStatus storage name).2.1 = storage ∧
     ((lockerStatus storage name).2.2).all (fun e => !e.isMutating) = true) ∧
    ((owStatus w storage name).2.2.1 = storage ∧
     ((owStatus w storage name).2.2.2).all (fun e => !e.isMutating) = true) := by
  cases hget : storageGet storage (StorageKey.checkoutKey name) with
  | none =>
      simp [storageHandlerStatus, passwordHandlerStatus, lockerStatus, owStatus,
        hget, Event.isMutating]
  | some v =>
      cases v <;>
        simp [storageHandlerStatus, passwordHandlerStatus, lockerStatus, owStatus,
          hget, Event.isMutating]

/-- C8: the lock discipline of the ServiceAccountLocker.  Every mutating
operation (CheckOut, RenewCheckOut, CheckIn, Delete) brackets its whole inner
work between taking and releasing the exclusive lock of the named account, and
Status brackets its inner work between taking and releasing the shared (read)
lock of that account; in every case the inner work performs no lock activity, and
the only lock touched is the one keyed by the operation's own account name, so
operations on different accounts use different locks. -/
theorem locker_lockDiscipline (gen : EngineConf → Except Err String)
    (client : String → String → Except Err Unit) (storage : Storage) (name : String)
    (c : CheckOut) :
    (∃ tr, (lockerCheckOut storage name c).2.2 =
        Event.acquireWrite name :: tr ++ [Event.releaseWrite name] ∧
      tr.all (fun e => !e.isLock) = true) ∧
    (∃ tr, (lockerRenewCheckOut storage name c).2.2 =
        Event.acquireWrite name :: tr ++ [Event.releaseWrite name] ∧
      tr.all (fun e => !e.isLock) = true) ∧
    (∃ tr, (lockerCheckIn gen client storage name).2.2 =
        Event.acquireWrite name :: tr ++ [Event.releaseWrite name] ∧
      tr.all (fun e => !e.isLock) = true) ∧
    (∃ tr, (lockerDelete storage name).2.2 =
        Event.acquireWrite name :: tr ++ [Event.releaseWrite name] ∧
      tr.all (fun e => !e.isLock) = true) ∧
    (∃ tr, (lockerStatus storage name).2.2 =
        Event.acquireRead name :: tr ++ [Event.releaseRead name] ∧
      tr.all (fun e => !e.isLock) = true) := by
  refine ⟨⟨(passwordHandlerCheckOut storage name c).2.2, rfl, ?_⟩,
    ⟨(passwordHandlerRenewCheckOut storage name c).2.2, rfl, ?_⟩,
    ⟨(passwordHandlerCheckIn gen client storage name).2.2, rfl,
      passwordHandlerCheckIn_noLock gen client storage name⟩,
    ⟨(passwordHandlerDelete storage name).2.2, rfl,
      passwordHandlerDelete_noLock storage name⟩,
    ⟨(passwordHandlerStatus storage name).2.2, rfl, ?_⟩⟩
  · exact storageHandlerCheckOut_noLock storage name c
  · exact storageHandlerRenewCheckOut_noLock storage name c
  · exact storageHandlerStatus_noLock storage name

/-- C9: an error returned by OverdueWatcher.RenewCheckOut does not imply the
renewal was not stored.  When the account has a checkout record but no renewal
channel is registered for it, RenewCheckOut returns the missing renewal channel
error after the inner chain has already durably persisted the renewed check-out;
such a state is reachable because the synchronous part of OverdueWatcher.CheckOut
spawns the registering goroutine asynchronously and leaves renewalChans
untouched. -/
theorem owRenew_error_after_durable_renewal (w : WatcherState) (storage : Storage)
    (name : String) (c : CheckOut) :
    ((∃ v, storageGet storage (StorageKey.checkoutKey name) = some v) →
     ¬ name ∈ w.renewalChans →
     (owRenewCheckOut w storage name c).1 = Except.error Err.missingRenewalChannel ∧
     storageGet (owRenewCheckOut w storage name c).2.2.1
       (StorageKey.checkoutKey name) = some (StorageValue.checkOutVal c)) ∧
    (∀ (storage2 : Storage) (c2 : CheckOut),
       (owCheckOut w storage2 name c2).1 = Except.ok () →
       (owCheckOut w storage2 name c2).2.1.renewalChans = w.renewalChans) := by
  constructor
  · rintro ⟨v, hv⟩ hchan
    unfold owRenewCheckOut lockerRenewCheckOut passwordHandlerRenewCheckOut
    have hs : storageHandlerRenewCheckOut storage name c =
        (Except.ok (),
         storagePut storage (StorageKey.checkoutKey name) (StorageValue.checkOutVal c),
         [Event.getOp (StorageKey.checkoutKey name),
          Event.putOp (StorageKey.checkoutKey name) (StorageValue.checkOutVal c)]) := by
      simp [storageHandlerRenewCheckOut, hv]
    simp [hs, hchan, storageGet_put_same]
  · intro storage2 c2 hok
    unfold owCheckOut lockerCheckOut passwordHandlerCheckOut at hok ⊢
    cases hget : storageGet storage2 (StorageKey.checkoutKey name) with
    | some v => simp [storageHandlerCheckOut, hget] at hok
    | none => simp [storageHandlerCheckOut, hget]

/-- C9 witness: a concrete storage with a checkout record and an empty renewal
channel map, on which the renewal is persisted yet an error is returned. -/
theorem owRenew_error_after_durable_renewal_witness :
    (owRenewCheckOut
        { latestStorage := [], renewalChans := [], spawned := [], timers := [] }
        [(StorageKey.checkoutKey "becca",
          StorageValue.checkOutVal
            { borrowerEntityID := "e", borrowerClientToken := "t",
              lendingPeriod := 1, due := 10 })]
        "becca"
        { borrowerEntityID := "e", borrowerClientToken := "t",
          lendingPeriod := 1, due := 99 }).1 =
      Except.error Err.missingRenewalChannel ∧
    storageGet
      (owRenewCheckOut
        { latestStorage := [], renewalChans := [], spawned := [], timers := [] }
        [(StorageKey.checkoutKey "becca",
          StorageValue.checkOutVal
            { borrowerEntityID := "e", borrowerClientToken := "t",
              lendingPeriod := 1, due := 10 })]
        "becca"
        { borrowerEntityID := "e", borrowerClientToken := "t",
          lendingPeriod := 1, due := 99 }).2.2.1
      (StorageKey.checkoutKey "becca") =
      some (StorageValue.checkOutVal
        { borrowerEntityID := "e", borrowerClientToken := "t",
          lendingPeriod := 1, due := 99 }) :=
  (owRenew_error_after_durable_renewal
      { latestStorage := [], renewalChans := [], spawned := [], timers := [] }
      [(StorageKey.checkoutKey "becca",
        StorageValue.checkOutVal
          { borrowerEntityID := "e", borrowerClientToken := "t",
            lendingPeriod := 1, due := 10 })]
      "becca"
      { borrowerEntityID := "e", borrowerClientToken := "t",
        lendingPeriod := 1, due := 99 }).1
    ⟨StorageValue.checkOutVal
      { borrowerEntityID := "e", borrowerClientToken := "t",
        lendingPeriod := 1, due := 10 }, rfl⟩
    (by simp)

/-- C6: the per-account step of the reclamation bootstrap in NewCheckOutHandler.
An account with no checkout record is skipped (nothing checked in, no watcher
armed, storage unchanged); an account whose stored due time is not after the
current time is immediately checked in (on success its checkout record is gone);
an account whose stored due time is still in the future gets a watcher armed
with exactly the stored due time, with storage unchanged. -/
theorem bootstrap_reclamation (gen : EngineConf → Except Err String)
    (client : String → String → Except Err Unit) (w : WatcherState) (storage : Storage)
    (now : Int) (name : String) :
    (storageGet storage (StorageKey.checkoutKey name) = none →
       ∃ w1, (bootstrapAccount gen client w storage now name).1 =
           Except.ok (w1, storage) ∧
         w1.renewalChans = w.renewalChans ∧ w1.timers = w.timers) ∧
    (∀ c, storageGet storage (StorageKey.checkoutKey name) =
        some (StorageValue.checkOutVal c) → ¬ c.due > now →
       ∀ w2 s2, (bootstrapAccount gen client w storage now name).1 =
           Except.ok (w2, s2) →
         storageGet s2 (StorageKey.checkoutKey name) = none) ∧
    (∀ c, storageGet storage (StorageKey.checkoutKey name) =
        some (StorageValue.checkOutVal c) → c.due > now →
       ∃ w2, (bootstrapAccount gen client w storage now name).1 =
           Except.ok (w2, storage) ∧
         w2.renewalChans = name :: w.renewalChans ∧
         w2.timers = (name, c.due) :: w.timers) := by
  refine ⟨?_, ?_, ?_⟩
  · intro h
    unfold bootstrapAccount owStatus lockerStatus passwordHandlerStatus
      storageHandlerStatus
    simp [h]
  · intro c hget hdue w2 s2 hok
    unfold bootstrapAccount owStatus lockerStatus passwordHandlerStatus
      storageHandlerStatus at hok
    simp only [hget] at hok
    rw [if_neg hdue] at hok
    rcases howc : owCheckIn gen client { w with latestStorage := storage }
        storage name with ⟨r, wr, sr, tr⟩
    rw [howc] at hok
    cases r with
    | error e => simp at hok
    | ok u =>
        cases u
        simp at hok
        have h1 : (owCheckIn gen client { w with latestStorage := storage }
            storage name).1 = Except.ok () := by rw [howc]
        have h2 := owCheckIn_ok_get_none gen client
          { w with latestStorage := storage } storage name h1
        rw [howc] at h2
        rw [← hok.2]
        exact h2
  · intro c hget hdue
    unfold bootstrapAccount owStatus lockerStatus passwordHandlerStatus
      storageHandlerStatus
    simp [hget, hdue, startWatchingReg]

/-- C6 witness: concrete runs of the bootstrap step.  The account due in the
future gets its watcher armed with the stored due time; the same state has a
record, discharging the hypotheses of the theorem. -/
theorem bootstrap_reclamation_witness :
    ∃ w2, (bootstrapAccount (fun _ => Except.ok "newpw") (fun _ _ => Except.ok ())
        { latestStorage := [], renewalChans := [], spawned := [], timers := [] }
        [(StorageKey.checkoutKey "becca",
          StorageValue.checkOutVal
            { borrowerEntityID := "e", borrowerClientToken := "t",
              lendingPeriod := 1, due := 50 })]
        10 "becca").1 =
      Except.ok (w2,
        [(StorageKey.checkoutKey "becca",
          StorageValue.checkOutVal
            { borrowerEntityID := "e", borrowerClientToken := "t",
              lendingPeriod := 1, due := 50 })]) ∧
      w2.renewalChans = ["becca"] ∧ w2.timers = [("becca", 50)] :=
  ((bootstrap_reclamation (fun _ => Except.ok "newpw") (fun _ _ => Except.ok ())
      { latestStorage := [], renewalChans := [], spawned := [], timers := [] }
      [(StorageKey.checkoutKey "becca",
        StorageValue.checkOutVal
          { borrowerEntityID := "e", borrowerClientToken := "t",
            lendingPeriod := 1, due := 50 })]
      10 "becca").2.2
    { borrowerEntityID := "e", borrowerClientToken := "t",
      lendingPeriod := 1, due := 50 } rfl (by decide))

/-- C4: when the remote UpdatePassword call fails during a check-in, the
password handler returns the error and makes no state change at or below itself:
the storage (and with it the checkout record) is exactly what it was, and in the
recovery-log variant the WAL entry written for this rotation remains in place
for later retry. -/
theorem checkIn_remoteFailure_noStateChange (gen : EngineConf → Except Err String)
    (client : String → String → Except Err Unit) (name : String)
    (conf : EngineConf) (pw : String) (e : Err) :
    (∀ storage : Storage, readConfig storage = Except.ok (some conf) →
       gen conf = Except.ok pw → client name pw = Except.error e →
       (passwordHandlerCheckIn gen client storage name).1 = Except.error e ∧
       (passwordHandlerCheckIn gen client storage name).2.1 = storage) ∧
    (∀ st : WalState, readConfig st.storage = Except.ok (some conf) →
       gen conf = Except.ok pw → client name pw = Except.error e →
       (walPasswordCheckIn gen client st name).1 = Except.error e ∧
       (walPasswordCheckIn gen client st name).2.1.storage = st.storage ∧
       (⟨st.nextWalId, name, pw⟩ : WalEntry) ∈
         (walPasswordCheckIn gen client st name).2.1.wal) := by
  constructor
  · intro storage hconf hgen hcl
    unfold passwordHandlerCheckIn
    simp [hconf, hgen, hcl]
  · intro st hconf hgen hcl
    unfold walPasswordCheckIn
    simp [hconf, hgen, hcl]

/-- C4 witness: a concrete failing remote update, on which the check-in errors,
the storage is untouched and the recovery log keeps the entry. -/
theorem checkIn_remoteFailure_noStateChange_witness :
    (walPasswordCheckIn (fun _ => Except.ok "newpw") (fun _ _ => Except.error Err.remoteUpdateFailed)
        { storage := [(StorageKey.configKey,
            StorageValue.configVal { formatter := "", length := 14 })],
          wal := [], nextWalId := 7 } "becca").1 =
      Except.error Err.remoteUpdateFailed ∧
    (⟨7, "becca", "newpw"⟩ : WalEntry) ∈
      (walPasswordCheckIn (fun _ => Except.ok "newpw") (fun _ _ => Except.error Err.remoteUpdateFailed)
        { storage := [(StorageKey.configKey,
            StorageValue.configVal { formatter := "", length := 14 })],
          wal := [], nextWalId := 7 } "becca").2.1.wal :=
  ⟨((checkIn_remoteFailure_noStateChange (fun _ => Except.ok "newpw")
      (fun _ _ => Except.error Err.remoteUpdateFailed) "becca"
      { formatter := "", length := 14 } "newpw" Err.remoteUpdateFailed).2
      { storage := [(StorageKey.configKey,
          StorageValue.configVal { formatter := "", length := 14 })],
        wal := [], nextWalId := 7 } rfl rfl rfl).1,
   ((checkIn_remoteFailure_noStateChange (fun _ => Except.ok "newpw")
      (fun _ _ => Except.error Err.remoteUpdateFailed) "becca"
      { formatter := "", length := 14 } "newpw" Err.remoteUpdateFailed).2
      { storage := [(StorageKey.configKey,
          StorageValue.configVal { formatter := "", length := 14 })],
        wal := [], nextWalId := 7 } rfl rfl rfl).2.2⟩

/-- C5 counterexample: check-in on an already-available account (no checkout
record) is not side-effect free.  On this concrete storage holding the password
"oldpw", a further CheckIn succeeds but rotates the password remotely (the
update event is in the trace) and overwrites the stored password with the newly
generated one, refuting the claim that no rotation or overwrite happens. -/
theorem checkIn_idempotent_counterexample :
    storageGet
      [(StorageKey.configKey, StorageValue.configVal { formatter := "", length := 14 }),
       (StorageKey.passwordKey "becca", StorageValue.passwordVal "oldpw")]
      (StorageKey.checkoutKey "becca") = none ∧
    (passwordHandlerCheckIn (fun _ => Except.ok "newpw") (fun _ _ => Except.ok ())
      [(StorageKey.configKey, StorageValue.configVal { formatter := "", length := 14 }),
       (StorageKey.passwordKey "becca", StorageValue.passwordVal "oldpw")]
      "becca").1 = Except.ok () ∧
    storageGet
      (passwordHandlerCheckIn (fun _ => Except.ok "newpw") (fun _ _ => Except.ok ())
        [(StorageKey.configKey, StorageValue.configVal { formatter := "", length := 14 }),
         (StorageKey.passwordKey "becca", StorageValue.passwordVal "oldpw")]
        "becca").2.1 (StorageKey.passwordKey "becca") =
      some (StorageValue.passwordVal "newpw") ∧
    ¬ ("newpw" = "oldpw") ∧
    (passwordHandlerCheckIn (fun _ => Except.ok "newpw") (fun _ _ => Except.ok ())
      [(StorageKey.configKey, StorageValue.configVal { formatter := "", length := 14 }),
       (StorageKey.passwordKey "becca", StorageValue.passwordVal "oldpw")]
      "becca").2.2 =
      [Event.getOp StorageKey.configKey,
       Event.updatePasswordOp "becca" "newpw" true,
       Event.putOp (StorageKey.passwordKey "becca") (StorageValue.passwordVal "newpw"),
       Event.delOp (StorageKey.checkoutKey "becca")] :=
  ⟨rfl, rfl, rfl, by decide, rfl⟩

/-- C5 (amended): CheckIn on an already-available account (no checkout record)
succeeds - the storage layer's delete of the absent record is a silent no-op -
but it is not free of side effects: the password handler generates a new
password, updates it remotely and overwrites the stored password on every
check-in call, whether or not the account was checked out.  The account is left
available. -/
theorem checkIn_idempotent_amended (gen : EngineConf → Except Err String)
    (client : String → String → Except Err Unit) (storage : Storage) (name : String)
    (conf : EngineConf) (pw : String)
    (havail : storageGet storage (StorageKey.checkoutKey name) = none)
    (hconf : readConfig storage = Except.ok (some conf))
    (hgen : gen conf = Except.ok pw)
    (hcl : client name pw = Except.ok ()) :
    (storageHandlerCheckIn storage name).1 = Except.ok () ∧
    (storageHandlerCheckIn storage name).2.1 = storage ∧
    (passwordHandlerCheckIn gen client storage name).1 = Except.ok () ∧
    storageGet (passwordHandlerCheckIn gen client storage name).2.1
      (StorageKey.passwordKey name) = some (StorageValue.passwordVal pw) ∧
    storageGet (passwordHandlerCheckIn gen client storage name).2.1
      (StorageKey.checkoutKey name) = none := by
  have hnoop : storageDelete storage (StorageKey.checkoutKey name) = storage :=
    storageDelete_of_get_none storage (StorageKey.checkoutKey name) havail
  refine ⟨rfl, ?_, ?_, ?_, ?_⟩
  · simpa [storageHandlerCheckIn, storageHandlerDelete] using hnoop
  · unfold passwordHandlerCheckIn
    simp [hconf, hgen, hcl, storageHandlerCheckIn, storageHandlerDelete]
  · unfold passwordHandlerCheckIn
    simp only [hconf, hgen, hcl]
    have hne : ¬ (StorageKey.passwordKey name = StorageKey.checkoutKey name) := by
      simp
    simp [storageHandlerCheckIn, storageHandlerDelete,
      storageGet_delete_ne _ _ _ hne, storageGet_put_same]
  · unfold passwordHandlerCheckIn
    simp only [hconf, hgen, hcl]
    simp [storageHandlerCheckIn, storageHandlerDelete, storageGet_delete_same]

/-- C5 amended witness: the concrete already-available account of the
counterexample, run through the amended statement. -/
theorem checkIn_idempotent_amended_witness :
    (passwordHandlerCheckIn (fun _ => Except.ok "newpw") (fun _ _ => Except.ok ())
      [(StorageKey.configKey, StorageValue.configVal { formatter := "", length := 14 }),
       (StorageKey.passwordKey "becca", StorageValue.passwordVal "oldpw")]
      "becca").1 = Except.ok () ∧
    storageGet
      (passwordHandlerCheckIn (fun _ => Except.ok "newpw") (fun _ _ => Except.ok ())
        [(StorageKey.configKey, StorageValue.configVal { formatter := "", length := 14 }),
         (StorageKey.passwordKey "becca", StorageValue.passwordVal "oldpw")]
        "becca").2.1 (StorageKey.checkoutKey "becca") = none :=
  ⟨(checkIn_idempotent_amended (fun _ => Except.ok "newpw") (fun _ _ => Except.ok ())
      [(StorageKey.configKey, StorageValue.configVal { formatter := "", length := 14 }),
       (StorageKey.passwordKey "becca", StorageValue.passwordVal "oldpw")]
      "becca" { formatter := "", length := 14 } "newpw" rfl rfl rfl rfl).2.2.1,
   (checkIn_idempotent_amended (fun _ => Except.ok "newpw") (fun _ _ => Except.ok ())
      [(StorageKey.configKey, StorageValue.configVal { formatter := "", length := 14 }),
       (StorageKey.passwordKey "becca", StorageValue.passwordVal "oldpw")]
      "becca" { formatter := "", length := 14 } "newpw" rfl rfl rfl rfl).2.2.2.2⟩

/-- C2: in the recovery-log check-in, every remote UpdatePassword attempt in the
event trace is preceded by the durable write of a recovery log entry carrying
the same account name and the same new password, and a recovery log deletion
happens only after both a successful remote update and the persistence of that
new password to storage. -/
theorem walCheckIn_recoveryLog_ordering (gen : EngineConf → Except Err String)
    (client : String → String → Except Err Unit) (st : WalState) (name : String) :
    (∀ (j : Nat) (pw : String) (ok : Bool),
        ((walPasswordCheckIn gen client st name).2.2)[j]? =
          some (Event.updatePasswordOp name pw ok) →
      ∃ i : Nat, i < j ∧ ((walPasswordCheckIn gen client st name).2.2)[i]? =
        some (Event.putWALOp name pw)) ∧
    (∀ (j : Nat) (wid : Nat),
        ((walPasswordCheckIn gen client st name).2.2)[j]? =
          some (Event.delWALOp wid) →
      ∃ (i k : Nat) (pw : String), i < j ∧ k < j ∧
        ((walPasswordCheckIn gen client st name).2.2)[i]? =
          some (Event.updatePasswordOp name pw true) ∧
        ((walPasswordCheckIn gen client st name).2.2)[k]? =
          some (Event.putOp (StorageKey.passwordKey name)
            (StorageValue.passwordVal pw))) := by
  cases hconf : readConfig st.storage with
  | error e =>
      have htr : (walPasswordCheckIn gen client st name).2.2 =
          [Event.getOp StorageKey.configKey] := by
        unfold walPasswordCheckIn
        simp [hconf]
      refine ⟨?_, ?_⟩
      · intro j pw ok hj
        rw [htr] at hj
        match j with
        | 0 => simp at hj
        | (n+1) => simp at hj
      · intro j wid hj
        rw [htr] at hj
        match j with
        | 0 => simp at hj
        | (n+1) => simp at hj
  | ok oc =>
      cases oc with
      | none =>
          have htr : (walPasswordCheckIn gen client st name).2.2 =
              [Event.getOp StorageKey.configKey] := by
            unfold walPasswordCheckIn
            simp [hconf]
          refine ⟨?_, ?_⟩
          · intro j pw ok hj
            rw [htr] at hj
            match j with
            | 0 => simp at hj
            | (n+1) => simp at hj
          · intro j wid hj
            rw [htr] at hj
            match j with
            | 0 => simp at hj
            | (n+1) => simp at hj
      | some conf =>
          cases hgen : gen conf with
          | error e =>
              have htr : (walPasswordCheckIn gen client st name).2.2 =
                  [Event.getOp StorageKey.configKey] := by
                unfold walPasswordCheckIn
                simp [hconf, hgen]
              refine ⟨?_, ?_⟩
              · intro j pw ok hj
                rw [htr] at hj
                match j with
                | 0 => simp at hj
                | (n+1) => simp at hj
              · intro j wid hj
                rw [htr] at hj
                match j with
                | 0 => simp at hj
                | (n+1) => simp at hj
          | ok pw0 =>
              cases hcl : client name pw0 with
              | error e2 =>
                  have htr : (walPasswordCheckIn gen client st name).2.2 =
                      [Event.getOp StorageKey.configKey,
                       Event.putWALOp name pw0,
                       Event.updatePasswordOp name pw0 false] := by
                    unfold walPasswordCheckIn
                    simp [hconf, hgen, hcl]
                  refine ⟨?_, ?_⟩
                  · intro j pw ok hj
                    rw [htr] at hj
                    match j with
                    | 0 => simp at hj
                    | 1 => simp at hj
                    | 2 =>
                        simp at hj
                        exact ⟨1, by omega, by rw [htr]; simp [hj.1]⟩
                    | (n+3) => simp at hj
                  · intro j wid hj
                    rw [htr] at hj
                    match j with
                    | 0 => simp at hj
                    | 1 => simp at hj
                    | 2 => simp at hj
                    | (n+3) => simp at hj
              | ok u =>
                  have htr : (walPasswordCheckIn gen client st name).2.2 =
                      [Event.getOp StorageKey.configKey,
                       Event.putWALOp name pw0,
                       Event.updatePasswordOp name pw0 true,
                       Event.putOp (StorageKey.passwordKey name)
                         (StorageValue.passwordVal pw0),
                       Event.delWALOp st.nextWalId,
                       Event.delOp (StorageKey.libraryKey name)] := by
                    unfold walPasswordCheckIn
                    simp [hconf, hgen, hcl, walStorageHandlerCheckIn]
                  refine ⟨?_, ?_⟩
                  · intro j pw ok hj
                    rw [htr] at hj
                    match j with
                    | 0 => simp at hj
                    | 1 => simp at hj
                    | 2 =>
                        simp at hj
                        exact ⟨1, by omega, by rw [htr]; simp [hj.1]⟩
                    | 3 => simp at hj
                    | 4 => simp at hj
                    | 5 => simp at hj
                    | (n+6) => simp at hj
                  · intro j wid hj
                    rw [htr] at hj
                    match j with
                    | 0 => simp at hj
                    | 1 => simp at hj
                    | 2 => simp at hj
                    | 3 => simp at hj
                    | 4 =>
                        exact ⟨2, 3, pw0, by omega, by omega,
                          by rw [htr]; simp, by rw [htr]; simp⟩
                    | 5 => simp at hj
                    | (n+6) => simp at hj

/-- C2 witness: a concrete successful recovery-log check-in; position 2 of its
trace is the remote update and the theorem yields the preceding log write, and
position 4 is the log deletion with the preceding update and persistence. -/
theorem walCheckIn_recoveryLog_ordering_witness :
    ((walPasswordCheckIn (fun _ => Except.ok "newpw") (fun _ _ => Except.ok ())
        { storage := [(StorageKey.configKey,
            StorageValue.configVal { formatter := "", length := 14 })],
          wal := [], nextWalId := 7 } "becca").2.2)[2]? =
      some (Event.updatePasswordOp "becca" "newpw" true) ∧
    (∃ i, i < 2 ∧
      ((walPasswordCheckIn (fun _ => Except.ok "newpw") (fun _ _ => Except.ok ())
          { storage := [(StorageKey.configKey,
              StorageValue.configVal { formatter := "", length := 14 })],
            wal := [], nextWalId := 7 } "becca").2.2)[i]? =
        some (Event.putWALOp "becca" "newpw")) :=
  ⟨rfl,
   (walCheckIn_recoveryLog_ordering (fun _ => Except.ok "newpw") (fun _ _ => Except.ok ())
      { storage := [(StorageKey.configKey,
          StorageValue.configVal { formatter := "", length := 14 })],
        wal := [], nextWalId := 7 } "becca").1 2 "newpw" true rfl⟩

/-- C7: a set check-out request on an existing set either checks out the first
available member in the set's stored member order and answers with that
account, its stored password and the lease metadata (renewable, ttl, max ttl),
or - when no member is available - answers a 429 response carrying a warning (a
capacity signal, not an error return). -/
theorem setCheckOut_firstAvailable_or_429 (storage : Storage)
    (inp : SetCheckOutInput) (set : LibrarySet)
    (hset : readSet storage inp.setName = Except.ok (some set)) :
    (∀ m pw,
       (∀ n ∈ set.serviceAccountNames, ∃ c,
          storageGet storage (StorageKey.checkoutKey n) =
            some (StorageValue.checkOutV2Val c)) →
       set.serviceAccountNames.find? (fun n => memberAvailable storage n) = some m →
       storageGet storage (StorageKey.passwordKey m) =
         some (StorageValue.passwordVal pw) →
       ∃ ttl, operationSetCheckOut storage inp =
         (SetCheckOutResult.checkedOutResp m pw true ttl set.maxTTL,
          storagePut storage (StorageKey.checkoutKey m)
            (StorageValue.checkOutV2Val
              { isAvailable := false, borrowerEntityID := inp.entityID,
                borrowerClientToken := inp.clientToken,
                lendingPeriod := 0, due := 0 }))) ∧
    ((∀ n ∈ set.serviceAccountNames, ∃ c,
        storageGet storage (StorageKey.checkoutKey n) =
          some (StorageValue.checkOutV2Val c) ∧ c.isAvailable = false) →
     operationSetCheckOut storage inp =
       (SetCheckOutResult.unavailable 429
         "No service accounts available for check-out.", storage)) := by
  constructor
  · intro m pw hall hfind hpw
    unfold operationSetCheckOut
    simp only [hset]
    exact ⟨_, setCheckOutLoop_first_available _ _ _ _ _ _ _ hall hfind hpw⟩
  · intro hall
    unfold operationSetCheckOut
    simp only [hset]
    exact setCheckOutLoop_none_available _ _ _ _ _ hall

/-- C7 witness: a concrete two-member set whose first member is checked out and
whose second is available with a stored password; the check-out returns the
second member with its password and the lease metadata of the set. -/
theorem setCheckOut_firstAvailable_or_429_witness :
    ∃ ttl, operationSetCheckOut
      [(StorageKey.libraryKey "s",
        StorageValue.setVal
          { serviceAccountNames := ["a", "b"], ttl := 3600, maxTTL := 7200,
            disableCheckInEnforcement := false }),
       (StorageKey.checkoutKey "a",
        StorageValue.checkOutV2Val
          { isAvailable := false, borrowerEntityID := "x",
            borrowerClientToken := "y", lendingPeriod := 0, due := 0 }),
       (StorageKey.checkoutKey "b",
        StorageValue.checkOutV2Val
          { isAvailable := true, borrowerEntityID := "",
            borrowerClientToken := "", lendingPeriod := 0, due := 0 }),
       (StorageKey.passwordKey "b", StorageValue.passwordVal "pwB")]
      { setName := "s", ttlSent := false, requestedTTL := 0,
        entityID := "E", clientToken := "T" } =
      (SetCheckOutResult.checkedOutResp "b" "pwB" true ttl 7200,
       storagePut
        [(StorageKey.libraryKey "s",
          StorageValue.setVal
            { serviceAccountNames := ["a", "b"], ttl := 3600, maxTTL := 7200,
              disableCheckInEnforcement := false }),
         (StorageKey.checkoutKey "a",
          StorageValue.checkOutV2Val
            { isAvailable := false, borrowerEntityID := "x",
              borrowerClientToken := "y", lendingPeriod := 0, due := 0 }),
         (StorageKey.checkoutKey "b",
          StorageValue.checkOutV2Val
            { isAvailable := true, borrowerEntityID := "",
              borrowerClientToken := "", lendingPeriod := 0, due := 0 }),
         (StorageKey.passwordKey "b", StorageValue.passwordVal "pwB")]
        (StorageKey.checkoutKey "b")
        (StorageValue.checkOutV2Val
          { isAvailable := false, borrowerEntityID := "E",
            borrowerClientToken := "T", lendingPeriod := 0, due := 0 })) :=
  (setCheckOut_firstAvailable_or_429
      [(StorageKey.libraryKey "s",
        StorageValue.setVal
          { serviceAccountNames := ["a", "b"], ttl := 3600, maxTTL := 7200,
            disableCheckInEnforcement := false }),
       (StorageKey.checkoutKey "a",
        StorageValue.checkOutV2Val
          { isAvailable := false, borrowerEntityID := "x",
            borrowerClientToken := "y", lendingPeriod := 0, due := 0 }),
       (StorageKey.checkoutKey "b",
        StorageValue.checkOutV2Val
          { isAvailable := true, borrowerEntityID := "",
            borrowerClientToken := "", lendingPeriod := 0, due := 0 }),
       (StorageKey.passwordKey "b", StorageValue.passwordVal "pwB")]
      { setName := "s", ttlSent := false, requestedTTL := 0,
        entityID := "E", clientToken := "T" }
      { serviceAccountNames := ["a", "b"], ttl := 3600, maxTTL := 7200,
        disableCheckInEnforcement := false }
      rfl).1 "b" "pwB"
    (by
      intro n hn
      cases hn with
      | head =>
          exact ⟨{ isAvailable := false, borrowerEntityID := "x",
                   borrowerClientToken := "y", lendingPeriod := 0, due := 0 }, rfl⟩
      | tail _ h2 =>
          cases h2 with
          | head =>
              exact ⟨{ isAvailable := true, borrowerEntityID := "",
                       borrowerClientToken := "", lendingPeriod := 0, due := 0 }, rfl⟩
          | tail _ h3 => cases h3)
    rfl rfl

end VaultAD
